import Mathlib

set_option maxRecDepth 4000

/-
Verification of the email-deliverability audit engine.

The development shallowly embeds the orchestration core and its provider
clients: blacklist checking (blacklist_checker.py), the GlockApps
placement-test client (glockapps_api.py), the PostmarkApp spam-content
scanner (postmark_checker.py), the report block generator
(report_generator.py) and the orchestrator itself (main.py).  External
HTTP traffic, DNS resolution, the record store and the scraper process
are modelled as explicit environment inputs; Python dictionaries with
optional keys become structures of `Option` fields, `dict.get` with a
default becomes `Option.getD`, and a raised exception becomes the
`Except.error` constructor.  Floating-point scores are modelled as
rationals; the only operations performed on them in the source are
comparisons against integer thresholds, additions to history lists and
equality tests, on which the rational model agrees with the float one.
-/

/-- Outcome of one HTTP call as seen by a client: either a response with
a status code and an already-parsed body, or a transport-level
exception carrying its message. -/
inductive HttpFetch (α : Type) where
  | resp (code : Nat) (body : α)
  | exn (msg : String)

/-- Python `a or b` on two optional strings, where a present-but-empty
string is falsy (`dict.get` returning `""` falls through to `b`). -/
def pyOrStr (a b : Option String) : Option String :=
  match a with
  | some s => if s = "" then b else some s
  | none => b

/-- Python truthiness of an optional string: present and non-empty. -/
def pyTruthyStr (a : Option String) : Bool :=
  match a with
  | some s => s ≠ ""
  | none => false

/-- Python `str.startswith`, modelled character-wise so that it
evaluates by kernel reduction. -/
def strStartsWith (s p : String) : Bool :=
  p.data.isPrefixOf s.data

/-! ## PostmarkApp spam-content scanner (postmark_checker.py) -/

/-- One entry of the `rules` array of a PostmarkApp SpamCheck response.
Missing string keys are modelled as `""`, matching the source's
`rule.get(key, "") or ...` chains. -/
structure PRule where
  score : Option ℚ
  scoreCap : Option ℚ
  description : String
  descriptionCap : String
  name : String
  details : String
  detailsCap : String

/-- Body of a PostmarkApp SpamCheck HTTP 200 response.  `score` is the
lower-case `"score"` key, `scoreCap` the upper-case `"Score"` key; the
same convention is used for the `rules`/`Rules` and `report`/`Report`
keys (a missing list key is the empty list, a missing string key `""`,
matching `raw_result.get(k, default)`). -/
structure PostmarkBody where
  score : Option ℚ
  scoreCap : Option ℚ
  rules : List PRule
  rulesCap : List PRule
  report : String
  reportCap : String

/-- One parsed rule violation (`_parse_postmark_results`, rules loop). -/
structure Violation where
  rule : String
  score : ℚ
  details : String
deriving DecidableEq

/-- Result dictionary of the Postmark checker.  The success shape and
the two error shapes of `check_email_deliverability` are unified into
one structure of optional fields, mirroring a Python dict with
different key sets per outcome. -/
structure PostmarkResult where
  status : String
  error : Option String
  spamScore : Option ℚ
  deliverability : Option String
  ruleViolations : Option (List Violation)
  report : Option String

/-- The spam-score extraction of `_parse_postmark_results` (lines
111-115): `score = 0`, overridden by the `"score"` key if present, else
by the `"Score"` key if present. -/
def postmarkScore (raw : PostmarkBody) : ℚ :=
  match raw.score with
  | some q => q
  | none =>
    match raw.scoreCap with
    | some q => q
    | none => 0

/-- The four-band bucketing of `_parse_postmark_results` (lines
120-128): `<5 → Excellent`, `<10 → Good`, `<15 → Fair`, else `Poor`. -/
def bandOf (score : ℚ) : String :=
  if score < 5 then "Excellent"
  else if score < 10 then "Good"
  else if score < 15 then "Fair"
  else "Poor"

/-- Rule-violation extraction of `_parse_postmark_results` (lines
131-147): rules with positive score, display name from the first truthy
of description/Description/name, else `"Unknown"`. -/
def ruleViolationsOf (rules : List PRule) : List Violation :=
  (rules.filterMap fun r =>
    let rscore :=
      match r.score with
      | some q => q
      | none =>
        match r.scoreCap with
        | some q => q
        | none => 0
    if rscore > 0 then
      let rname :=
        match pyOrStr (pyOrStr (some r.description) (some r.descriptionCap)) (some r.name) with
        | some s => s
        | none => "Unknown"
      let rname := if rname = "" then "Unknown" else rname
      let rdetails := (pyOrStr (some r.details) (some r.detailsCap)).getD ""
      some { rule := rname, score := rscore, details := rdetails }
    else none)

/-- `_parse_postmark_results` on an HTTP 200 body.  The enclosing
`try/except` of the source can only fire on ill-typed JSON values
(`float()` on a non-numeric), which the typed body model excludes, so
the parse is total here. -/
def parse_postmark_results (raw : PostmarkBody) : PostmarkResult :=
  let score := postmarkScore raw
  let rules := if raw.rules.isEmpty then raw.rulesCap else raw.rules
  let report := if raw.report = "" then raw.reportCap else raw.report
  { status := "success"
    error := none
    spamScore := some score
    deliverability := some (bandOf score)
    ruleViolations := some (ruleViolationsOf rules)
    report := some report }

/-- `check_email_deliverability`: POST to the SpamCheck API and
normalize the three outcomes (200 → parsed success dict, other code →
error dict, transport exception → error dict); the function never
raises. -/
def check_email_deliverability (fetch : HttpFetch PostmarkBody) : PostmarkResult :=
  match fetch with
  | .resp code body =>
    if code = 200 then parse_postmark_results body
    else
      { status := "error", error := some s!"API request failed: {code}"
        spamScore := none, deliverability := none, ruleViolations := none, report := none }
  | .exn e =>
    { status := "error", error := some e
      spamScore := none, deliverability := none, ruleViolations := none, report := none }

/-! ## Seed-list chunking (main.py, `split_seed_list`, lines 230-247) -/

/-- Structural worker for `chunks25`; the fuel is an upper bound on the
input length, so the fuel-exhausted branch is unreachable at the call
site below. -/
def chunks25Aux : Nat → List String → List (List String)
  | 0, _ => []
  | _, [] => []
  | fuel + 1, x :: xs => ((x :: xs).take 25) :: chunks25Aux fuel ((x :: xs).drop 25)

/-- Successive 25-element chunks of a list, the loop
`for i in range(0, len(seed_list), 25)`. -/
def chunks25 (l : List String) : List (List String) :=
  chunks25Aux l.length l

/-- The sentinel written into all five seed-list fields when the seed
list is empty. -/
def seedSentinel : String := "Failed to retrieve"

/-- `split_seed_list` with the source's default arguments
(`chunk_size=25`, `max_chunks=5`): empty input yields five sentinel
groups; otherwise the 25-element chunks are comma-joined, padded with
`""` up to five groups, and truncated to five groups. -/
def split_seed_list (seed_list : List String) : List String :=
  if seed_list.isEmpty then List.replicate 5 seedSentinel
  else
    let chunks := (chunks25 seed_list).map (String.intercalate ", ")
    (chunks ++ List.replicate (5 - chunks.length) "").take 5

/-- Concrete 126-element seed list used to exercise the truncation
behaviour of `split_seed_list`. -/
def seeds126 : List String := List.replicate 126 "a"

/-! ## GlockApps placement-test client (glockapps_api.py) -/

/-- Outcome of attempting one request with one credential-header
variant: a transport exception, or a response with its status code, a
flag recording whether the body text contains the string
`No API key provided`, and the parsed body. -/
inductive VariantOutcome (β : Type) where
  | exn (msg : String)
  | resp (code : Nat) (noApiKey : Bool) (body : β)

/-- Result of `_make_request_with_retry`: the indices of the header
variants attempted in order, the returned response (status code and
body — `none` models the Python `None` returned when every variant
fails), and the variant index written to `current_header_index` when a
2xx response accepted a variant. -/
structure RetryResult (β : Type) where
  tried : List Nat
  response : Option (Nat × β)
  accepted : Option Nat
deriving DecidableEq

/-- The loop of `_make_request_with_retry` (lines 96-115) over the
remaining header-variant indices: 2xx accepts and records the variant;
401/500 with a `No API key provided` body tries the next variant, as
does a transport exception; any other response is returned as-is
without recording a variant. -/
def retryLoop {β : Type} (outcomes : Nat → VariantOutcome β) :
    List Nat → RetryResult β
  | [] => { tried := [], response := none, accepted := none }
  | i :: rest =>
    match outcomes i with
    | .exn _ =>
      let r := retryLoop outcomes rest
      { r with tried := i :: r.tried }
    | .resp code noApiKey body =>
      if code = 200 ∨ code = 201 then
        { tried := [i], response := some (code, body), accepted := some i }
      else if (code = 401 ∨ code = 500) ∧ noApiKey then
        let r := retryLoop outcomes rest
        { r with tried := i :: r.tried }
      else
        { tried := [i], response := some (code, body), accepted := none }

/-- `_make_request_with_retry`: the four header variants are probed in
the fixed order 0,1,2,3 on every call; the function iterates over
`self.headers_variants` from its start and never consults the stored
`current_header_index` to choose where to begin. -/
def make_request_with_retry {β : Type} (outcomes : Nat → VariantOutcome β) :
    RetryResult β :=
  retryLoop outcomes [0, 1, 2, 3]

/-- The value of the `current_header_index` instance field after one
call of `_make_request_with_retry` that started with the field at
`idx`: overwritten only when a 2xx response accepted a variant. -/
def nextHeaderIndex {β : Type} (outcomes : Nat → VariantOutcome β) (idx : Nat) : Nat :=
  match (make_request_with_retry outcomes).accepted with
  | some i => i
  | none => idx

/-- One entry of the projects listing; both the `id` and `projectId`
keys may be present, absent, or present-but-empty. -/
structure Project where
  id : Option String
  projectId : Option String

/-- Body shapes of the `/projects` response distinguished by
`_get_project_id` (lines 134-141): a dict with a `results` key, a bare
list, or anything else. -/
inductive ProjectsBody where
  | withResults (projects : List Project)
  | asList (projects : List Project)
  | other

/-- The response-structure dispatch of `_get_project_id`. -/
def parseProjects : ProjectsBody → Option (List Project)
  | .withResults ps => some ps
  | .asList ps => some ps
  | .other => none

/-- `_get_project_id`: fetch the projects listing (with header-variant
retry), take the first project, and return its `id` or `projectId` when
truthy; every failure path returns `none`. -/
def get_project_id (projEnv : Nat → VariantOutcome ProjectsBody) : Option String :=
  match (make_request_with_retry projEnv).response with
  | none => none
  | some (code, body) =>
    if code = 200 then
      match parseProjects body with
      | none => none
      | some [] => none
      | some (p :: _) =>
        match pyOrStr p.id p.projectId with
        | some s => if s = "" then none else some s
        | none => none
    else none

/-- Body of a `manualTest` creation response: the `testId` key (absent
or possibly empty) and the `emails` seed list (missing key ≡ `[]`). -/
structure CreateBody where
  testId : Option String
  emails : List String

/-- The dict returned by a successful `create_test` (lines 199-204);
the unread `status`/`response` keys are omitted. -/
structure CreateTestOk where
  test_id : String
  emails : List String
deriving DecidableEq

/-- `create_test`: raises (modelled as `Except.error`, carrying the
exception message) when the project id cannot be retrieved, when no
header variant produced a response, on a non-2xx status, and on a
missing or empty `testId`; only a 2xx response with a truthy `testId`
returns normally. -/
def create_test (projEnv : Nat → VariantOutcome ProjectsBody)
    (createEnv : Nat → VariantOutcome CreateBody) : Except String CreateTestOk :=
  match get_project_id projEnv with
  | none => .error "Could not retrieve project ID from GlockApps"
  | some _pid =>
    match (make_request_with_retry createEnv).response with
    | none => .error "API request failed: No response"
    | some (code, body) =>
      if code = 200 ∨ code = 201 then
        match body.testId with
        | some t =>
          if t = "" then .error "No test ID in response"
          else .ok { test_id := t, emails := body.emails }
        | none => .error "No test ID in response"
      else .error s!"API request failed: {code}"

/-- Body of a test-status response as read by
`check_test_completion_stability`: `result.get('result', {})` holding
`finished` (missing ≡ `False`) and `stats.notDelivered` (missing
`stats` or `notDelivered` key ≡ absent, read with default 0). -/
structure TestResultBody where
  finished : Bool
  notDelivered : Option Int
deriving DecidableEq

/-- The three dict shapes returned by
`check_test_completion_stability` on a 200 response: completed because
the provider reported `finished`, completed because the not-delivered
history stabilized, or not ready (carrying the updated history). -/
inductive StabilityResult where
  | completedFinished (data : TestResultBody)
  | completedStable (data : TestResultBody) (stable : Int)
  | notReady (history : List Int)
deriving DecidableEq

/-- The history update of the stability check (lines 325-330): append
the current not-delivered count, then pop the oldest entry once the
history exceeds 3 values. -/
def updatedHistory (body : TestResultBody) (history : List Int) : List Int :=
  let h1 := history ++ [body.notDelivered.getD 0]
  if 3 < h1.length then h1.drop 1 else h1

/-- The completion-stability core (lines 315-340): `finished = true` is
complete immediately; otherwise the current not-delivered count is
appended to the history, the oldest entry popped once the history
exceeds 3, and the test is complete exactly when the history holds 3
entries with a single distinct value (`len(set(...)) == 1`). -/
def stabilityStep (body : TestResultBody) (history : List Int) : StabilityResult :=
  if body.finished then .completedFinished body
  else
    let nd := body.notDelivered.getD 0
    let h2 := updatedHistory body history
    if h2.length = 3 ∧ h2.eraseDups.length = 1 then .completedStable body nd
    else .notReady h2

/-- `check_test_completion_stability`: project-id lookup, then the test
fetch with header-variant retry; raises (`Except.error`) when the
project id is unavailable, no variant responded, or the status is not
200; a 200 response applies `stabilityStep` to its body. -/
def check_test_completion_stability (projEnv : Nat → VariantOutcome ProjectsBody)
    (fetchEnv : Nat → VariantOutcome TestResultBody) (history : List Int) :
    Except String StabilityResult :=
  match get_project_id projEnv with
  | none => .error "Could not retrieve project ID from GlockApps"
  | some _pid =>
    match (make_request_with_retry fetchEnv).response with
    | none => .error "API request failed: No response"
    | some (code, body) =>
      if code = 200 then .ok (stabilityStep body history)
      else .error s!"Failed to get test results: {code}"

/-- Whether a stability result is one of the two complete shapes. -/
def isCompleteResult : StabilityResult → Bool
  | .notReady _ => false
  | _ => true

/-- Successive calls of the stability core, one payload per call,
updating the tracked history from `not_ready` results exactly as
`get_test_report` does. -/
def runStability : List TestResultBody → List Int → List StabilityResult
  | [], _ => []
  | p :: ps, h =>
    match stabilityStep p h with
    | .notReady h2 => .notReady h2 :: runStability ps h2
    | r => r :: runStability ps h

/-- An intermediate polled payload: not finished, with the given
not-delivered count. -/
def ndPayload (n : Int) : TestResultBody :=
  { finished := false, notDelivered := some n }

/-- Header-variant environment in which variant 0 is rejected with a
401 `No API key provided` response and variant 1 is accepted. -/
def pinEnv : Nat → VariantOutcome Unit := fun i =>
  if i = 0 then .resp 401 true ()
  else if i = 1 then .resp 200 false ()
  else .exn "unused"

/-- Projects environment that always answers the listing with one
project whose id is `p1`. -/
def projEnvOk : Nat → VariantOutcome ProjectsBody := fun _ =>
  .resp 200 false (.asList [{ id := some "p1", projectId := none }])

/-- Test-creation environment in which every header variant hits a
transport exception. -/
def createEnvDown : Nat → VariantOutcome CreateBody := fun _ =>
  .exn "Connection refused"

/-- Test-creation environment answering HTTP 403 on every variant. -/
def createEnv403 : Nat → VariantOutcome CreateBody := fun _ =>
  .resp 403 false { testId := none, emails := [] }

/-- Test-status environment reporting an unfinished test with a
not-delivered count of 5. -/
def fetchEnv5 : Nat → VariantOutcome TestResultBody := fun _ =>
  .resp 200 false (ndPayload 5)

/-- One request of a client session: the call result together with the
`current_header_index` field after the call. -/
def requestStep {β : Type} (outcomes : Nat → VariantOutcome β) (idx : Nat) :
    RetryResult β × Nat :=
  (make_request_with_retry outcomes, nextHeaderIndex outcomes idx)

/-! ## Blacklist checker (blacklist_checker.py) -/

/-- One entry of the provider's `blacklists` array. -/
structure BlEntry where
  name : Option String
  id : Option String
  detected : Bool
deriving DecidableEq

/-- Body of a 200 blacklist-check response; missing keys collapse to
the defaults the source reads them with (`detections` 0,
`blacklists` `[]`, `checks_remaining` 0). -/
structure BlBody where
  detections : Nat
  blacklists : List BlEntry
  checksRemaining : Nat

/-- Result dict of `check_ip_blacklists`/`check_domain_blacklists` as a
structure of optional fields: the `checked` shape fills them, the
`failed`/`error` shapes carry only `status` and `error`.  The unread
`ip_address`/`domain`/`input_type`/`total_blacklists_checked`/
`raw_response`/`timestamp`/`error_details` keys are omitted. -/
structure BlacklistResult where
  status : String
  blacklisted : Option Bool
  detections : Option Nat
  blacklists : Option (List BlEntry)
  checksRemaining : Option Nat
  error : Option String

/-- `check_ip_blacklists`: 200 → `checked` dict with the detected
entries filtered out of the `blacklists` array; other status →
`failed`; transport exception → `error`.  The function never raises. -/
def check_ip_blacklists (f : HttpFetch BlBody) : BlacklistResult :=
  match f with
  | .resp code body =>
    if code = 200 then
      { status := "checked"
        blacklisted := some (decide (0 < body.detections))
        detections := some body.detections
        blacklists := some (body.blacklists.filter (·.detected))
        checksRemaining := some body.checksRemaining
        error := none }
    else
      { status := "failed", blacklisted := none, detections := none
        blacklists := none, checksRemaining := none, error := some s!"HTTP {code}" }
  | .exn e =>
    { status := "error", blacklisted := none, detections := none
      blacklists := none, checksRemaining := none, error := some e }

/-- `check_domain_blacklists`: identical outcome handling to
`check_ip_blacklists` (the extra `input_type` key it stores is never
read). -/
def check_domain_blacklists (f : HttpFetch BlBody) : BlacklistResult :=
  match f with
  | .resp code body =>
    if code = 200 then
      { status := "checked"
        blacklisted := some (decide (0 < body.detections))
        detections := some body.detections
        blacklists := some (body.blacklists.filter (·.detected))
        checksRemaining := some body.checksRemaining
        error := none }
    else
      { status := "failed", blacklisted := none, detections := none
        blacklists := none, checksRemaining := none, error := some s!"HTTP {code}" }
  | .exn e =>
    { status := "error", blacklisted := none, detections := none
      blacklists := none, checksRemaining := none, error := some e }

/-- Display name of a detected blacklist entry in main.py:
`bl.get('name', bl.get('id', 'Unknown'))`. -/
def blDisplayName (e : BlEntry) : String :=
  e.name.getD (e.id.getD "Unknown")

/-- `", ".join(...)`. -/
def joinComma (l : List String) : String := String.intercalate ", " l

/-- The `Issues Found` accumulation of main.py lines 140-146/154-160:
a present non-empty issue text is extended with `"; "`, otherwise the
new text replaces it. -/
def mergeIssues (cur : Option String) (new : String) : Option String :=
  match cur with
  | some c => if c = "" then some new else some (c ++ "; " ++ new)
  | none => some new

/-- The checks-remaining display of main.py lines 165-173. -/
def checksDisplay (r : BlacklistResult) : String :=
  if r.status = "fallback" then "Fallback - Check Failed"
  else
    match r.checksRemaining with
    | some n => toString n
    | none => "Unknown"

/-- The field map written after the blacklist step. -/
structure BlacklistFields where
  ipStatus : String
  domainStatus : String
  issuesFound : Option String
  rawJson : String
deriving DecidableEq

/-- The blacklist field-map builder of `process_single_audit`
(main.py lines 116-175), applied to the checker results exactly as
returned by the checker.  Note the source converts `failed`/`error`
results to `fallback` ones only at lines 178-193, after this field map
has been built, and never uses the converted values, so the `fallback`
branches below are unreachable from the checker's actual outputs. -/
def buildBlacklistFields (ipr dbr : BlacklistResult) : BlacklistFields :=
  let ipDetections := ipr.detections.getD 0
  let ipPart : String × Option String :=
    if ipr.status = "fallback" then
      ("Fallback - Check Failed", some "IP Blacklist check failed, using fallback values")
    else if ipr.blacklisted.getD false then
      let detected := (ipr.blacklists.getD []).map blDisplayName
      let detectedStr := joinComma detected
      (s!"BLACKLISTED ({ipDetections} detections): {detectedStr}",
        if detected.isEmpty then none else some s!"IP Blacklisted on: {detectedStr}")
    else
      (s!"Detections: {ipDetections}", none)
  let domDetections := dbr.detections.getD 0
  let domPart : String × Option String :=
    if dbr.status = "fallback" then
      -- the source's guard `if not domain_status` (line 138) is vacuous:
      -- the IP branch never writes the Domain Blacklist Status key
      ("Fallback - Check Failed",
        mergeIssues ipPart.2 "Domain Blacklist check failed, using fallback values")
    else if dbr.blacklisted.getD false then
      let detected := (dbr.blacklists.getD []).map blDisplayName
      let detectedStr := joinComma detected
      (s!"BLACKLISTED ({domDetections} detections): {detectedStr}",
        if detected.isEmpty then ipPart.2
        else mergeIssues ipPart.2 s!"Domain Blacklisted on: {detectedStr}")
    else
      (s!"Detections: {domDetections}", ipPart.2)
  let ipChecks := checksDisplay ipr
  let domainChecks := checksDisplay dbr
  { ipStatus := ipPart.1
    domainStatus := domPart.1
    issuesFound := domPart.2
    rawJson := s!"IP Checks Remaining: {ipChecks}, Domain Checks Remaining: {domainChecks}" }

/-- A clean blacklist body: zero detections. -/
def cleanBlBody : BlBody :=
  { detections := 0, blacklists := [], checksRemaining := 99 }

/-- Concrete SpamCheck body carrying neither a `score` nor a `Score`
key. -/
def rawNoScore : PostmarkBody :=
  { score := none, scoreCap := none, rules := [], rulesCap := []
    report := "", reportCap := "" }

/-! ## Orchestrator: one pass over a Running record
(main.py, `process_single_audit`, lines 65-310) -/

/-- One `update_audit_fields` call: the subset of record fields the
claims observe, each `none` when the call's field map does not carry
the corresponding key.  The five seed-list fields are collected into
one list. -/
structure FieldUpdate where
  status : Option String
  ipBlacklistStatus : Option String
  domainBlacklistStatus : Option String
  issuesFound : Option String
  rawJson : Option String
  errorLog : Option String
  testId : Option String
  seedLists : Option (List String)
  inboxPct : Option ℚ
  spamPct : Option ℚ
deriving DecidableEq

/-- An update carrying no field at all (base for the `with` updates). -/
def noUpdate : FieldUpdate :=
  { status := none, ipBlacklistStatus := none, domainBlacklistStatus := none
    issuesFound := none, rawJson := none, errorLog := none, testId := none
    seedLists := none, inboxPct := none, spamPct := none }

/-- Environment of one `process_single_audit` call: the record's domain
relation and store-resolved name, the DNS resolution of the domain, the
two blacklist HTTP outcomes, the GlockApps environments for project
lookup and test creation, and the wall-clock second used for the
fallback test id. -/
structure AuditEnv where
  hasRelation : Bool
  domainName : Option String
  ip : Option String
  ipFetch : HttpFetch BlBody
  domainFetch : HttpFetch BlBody
  projEnv : Nat → VariantOutcome ProjectsBody
  createEnv : Nat → VariantOutcome CreateBody
  timeNow : Nat

/-- `process_single_audit` as the sequence of `update_audit_fields`
calls it performs: missing relation or unresolvable store name return
with no update; unresolvable DNS writes the terminal `Error` update and
returns; otherwise the blacklist field map is written (note the
failed→fallback conversion of lines 178-193 happens only after that
map is built and its output is never used), then test creation either
succeeds — `Test Created` followed by `Awaiting Email Sending` — or
raises, in which case the fallback update marks the record
`GlockApps Completed` with a `fallback_`-prefixed test id. -/
def process_single_audit (env : AuditEnv) : List FieldUpdate :=
  if env.hasRelation = false then []
  else
    match env.domainName with
    | none => []
    | some domain =>
      match env.ip with
      | none =>
        [{ noUpdate with
            ipBlacklistStatus := some "Error: Could not resolve IP"
            domainBlacklistStatus := some "Error: Could not resolve IP"
            status := some "Error"
            errorLog := some s!"Failed to resolve IP for domain {domain}" }]
      | some _ipAddr =>
        let ipr := check_ip_blacklists env.ipFetch
        let dbr := check_domain_blacklists env.domainFetch
        let bl := buildBlacklistFields ipr dbr
        let u1 := { noUpdate with
            ipBlacklistStatus := some bl.ipStatus
            domainBlacklistStatus := some bl.domainStatus
            issuesFound := bl.issuesFound
            rawJson := some bl.rawJson }
        match create_test env.projEnv env.createEnv with
        | .ok res =>
          -- `test_id = test_result.get("test_id") or test_result.get("id")`:
          -- the ok dict always carries the truthy test_id checked below
          let tid := res.test_id
          if tid = "" then [u1]
          else
            let seedChunks := split_seed_list res.emails
            let nSeeds := res.emails.length
            let u2 := { noUpdate with
                testId := some tid
                seedLists := some seedChunks
                status := some "Test Created" }
            let u3 := { noUpdate with
                status := some "Awaiting Email Sending"
                errorLog := some s!"Ready for manual email sending. Seed list: {nSeeds} addresses. Test ID: {tid}" }
            [u1, u2, u3]
        | .error e =>
          let ftid := "fallback_" ++ toString env.timeNow
          let u2 := { noUpdate with
              testId := some ftid
              seedLists := some ["Fallback - GlockApps failed", "", "", "", ""]
              status := some "GlockApps Completed"
              inboxPct := some 0
              spamPct := some 0
              errorLog := some s!"GlockApps Error: {e} - Using fallback values" }
          [u1, u2]

/-- The record's status after a trace of updates: the last written
`Audit Status` value, `none` when no update touched the status (the
record then still holds its prior status). -/
def finalStatus (trace : List FieldUpdate) : Option String :=
  (trace.filterMap FieldUpdate.status).getLast?

/-- The record's GlockApps test id after a trace of updates. -/
def writtenTestId (trace : List FieldUpdate) : Option String :=
  (trace.filterMap FieldUpdate.testId).getLast?

/-- Concrete audit environment whose domain has a relation and a
resolvable store name but no DNS resolution. -/
def auditEnvNoIp : AuditEnv :=
  { hasRelation := true, domainName := some "example.com", ip := none
    ipFetch := .exn "unused", domainFetch := .exn "unused"
    projEnv := projEnvOk, createEnv := createEnvDown, timeNow := 1700000000 }

/-! ## Report block skeletons (report_generator.py)

Only the block object types are modelled: no claim concerns the block
texts, while the image/non-image distinction is load-bearing for the
scraper-failure claim. -/

/-- Notion block object types produced by the system. -/
inductive BlockType where
  | heading1
  | heading2
  | paragraph
  | bulletedListItem
  | divider
  | image
deriving DecidableEq, BEq

/-- Block-type skeleton of `generate_audit_report_blocks` (lines
70-111): the initial report written after GlockApps completion.  It
contains no image block. -/
def initialReportBlockTypes : List BlockType :=
  [.heading1, .paragraph, .divider,
   .heading1, .heading2, .paragraph, .heading2, .paragraph, .heading2, .paragraph,
   .divider,
   .heading1, .heading2, .paragraph, .heading2, .paragraph, .heading2, .paragraph,
   .heading2, .paragraph, .heading2,
   .bulletedListItem, .bulletedListItem, .bulletedListItem,
   .heading2, .bulletedListItem, .bulletedListItem, .heading2, .paragraph,
   .divider,
   .heading1, .paragraph]

/-- Block-type skeleton of `generate_final_audit_report_blocks` (lines
153-206), conditional on the fallback-test and failed-blacklist flags
it reads from the stored record.  It contains no image block for any
flag combination. -/
def finalReportBlockTypes (isFallback blacklistFailed : Bool) : List BlockType :=
  [.heading1, .paragraph, .divider,
   .heading1, .heading2, .paragraph, .heading2, .paragraph, .heading2, .paragraph,
   .divider,
   .heading1, .heading2]
  ++ (if isFallback then [.paragraph, .paragraph] else [.paragraph])
  ++ [.heading2, .paragraph, .heading2, .paragraph, .heading2, .paragraph, .heading2]
  ++ (if isFallback then [.paragraph] else [])
  ++ [.bulletedListItem, .bulletedListItem, .bulletedListItem, .heading2]
  ++ (if blacklistFailed then [.paragraph] else [])
  ++ [.bulletedListItem, .bulletedListItem, .heading2, .paragraph, .heading2,
      .paragraph, .divider, .heading1, .paragraph]

/-! ## Scraper invoker and completed-tests sweep
(main.py, `check_completed_tests` / `get_test_report` /
`_run_postmark_deliverability_check` / `_update_notion_with_postmark_results` /
`_run_postmaster_scraper`) -/

/-- `_run_postmaster_scraper`: `none` models the subprocess invocation
itself raising; a spawned process is a success exactly when its exit
code is 0 — the exit-code classification of lines 953-968 only produces
log lines and does not affect the returned value. -/
def run_postmaster_scraper (exitCode : Option Nat) : Bool :=
  match exitCode with
  | some c => c == 0
  | none => false

/-- An audit record as the sweep observes it: store page id, current
status, and the stored GlockApps test id. -/
structure Record where
  rid : Nat
  status : String
  testId : String
deriving DecidableEq

/-- Per-test in-memory tracking entry of `get_test_report`
(`_test_tracking`): not-delivered history, last poll time, minimum poll
interval (10 s in the source). -/
structure TrackEntry where
  history : List Int
  lastCheck : Nat
  interval : Nat
deriving DecidableEq

/-- Lookup in the tracking map (an association list keyed by test
id). -/
def trackLookup (t : List (String × TrackEntry)) (k : String) : Option TrackEntry :=
  match t.find? (fun p => p.1 == k) with
  | some p => some p.2
  | none => none

/-- Insert-or-replace in the tracking map. -/
def trackInsert (t : List (String × TrackEntry)) (k : String) (v : TrackEntry) :
    List (String × TrackEntry) :=
  match t with
  | [] => [(k, v)]
  | (k2, v2) :: rest =>
    if k2 = k then (k, v) :: rest else (k2, v2) :: trackInsert rest k v

/-- Deletion from the tracking map. -/
def trackErase (t : List (String × TrackEntry)) (k : String) :
    List (String × TrackEntry) :=
  t.filter (fun p => p.1 != k)

/-- Observable side effects of one sweep, in order: entering
`get_test_report` for a record, a status write, an error-log write, a
spam-content scan call, a scraper invocation, deletion of the local
screenshot directory, replacing the page content blocks, appending
content blocks, and the image-upload-and-append step
(`_append_postmaster_images_direct`). -/
inductive SweepAction where
  | reportCheck (rid : Nat)
  | statusWrite (rid : Nat) (st : String)
  | errorLogWrite (rid : Nat) (msg : String)
  | spamScan (rid : Nat)
  | scraperRun (rid : Nat)
  | cleanupDir (domain : String)
  | replaceBlocks (rid : Nat) (blocks : List BlockType)
  | appendBlocks (rid : Nat) (blocks : List BlockType)
  | appendImageBlocks (rid : Nat)
deriving DecidableEq

/-- Environment of one sweep: the clock, the GlockApps environments
(projects listing shared, test fetch per test id), the domain
relation/name resolution per record, the spam-scan HTTP outcome per
record, the scraper exit code per domain, and the failed-blacklist
flag the final report generator derives from the stored blacklist
status texts. -/
structure SweepEnv where
  now : Nat
  projEnv : Nat → VariantOutcome ProjectsBody
  testFetch : String → Nat → VariantOutcome TestResultBody
  domainOf : Nat → Option String
  postmarkFetch : Nat → HttpFetch PostmarkBody
  scraperExit : String → Option Nat
  blacklistFailedFlag : Nat → Bool

/-- Write a status value to the record with the given page id. -/
def setStatus (store : List Record) (rid : Nat) (st : String) : List Record :=
  store.map (fun r => if r.rid = rid then { r with status := st } else r)

/-- Find a record by page id. -/
def findRecord (store : List Record) (rid : Nat) : Option Record :=
  store.find? (fun r => r.rid == rid)

/-- `_update_notion_with_postmark_results` (lines 834-935): mark the
record `Postmark Completed`; then, when the domain is resolvable, run
the scraper — on success replace the page with the final report blocks
and upload-and-append the screenshots, on failure clean up the local
screenshot directory, overwrite the error log, replace the page with
the final report blocks and append the missing-screenshots note (a
paragraph block); finally mark the record `Completed` regardless. -/
def update_notion_with_postmark_results (env : SweepEnv) (store : List Record)
    (rid : Nat) : List Record × List SweepAction :=
  let store1 := setStatus store rid "Postmark Completed"
  let isFb :=
    match findRecord store rid with
    | some r => strStartsWith r.testId "fallback_"
    | none => false
  let reportBlocks := finalReportBlockTypes isFb (env.blacklistFailedFlag rid)
  let acts2 :=
    match env.domainOf rid with
    | none => []
    | some domain =>
      if run_postmaster_scraper (env.scraperExit domain) then
        [SweepAction.scraperRun rid,
         SweepAction.replaceBlocks rid reportBlocks,
         SweepAction.appendImageBlocks rid]
      else
        [SweepAction.scraperRun rid,
         SweepAction.cleanupDir domain,
         SweepAction.errorLogWrite rid
           s!"Postmaster scraper failed for domain {domain}. Screenshots unavailable. Check logs for details.",
         SweepAction.replaceBlocks rid reportBlocks,
         SweepAction.appendBlocks rid [BlockType.paragraph]]
  (setStatus store1 rid "Completed",
    SweepAction.statusWrite rid "Postmark Completed"
      :: acts2 ++ [SweepAction.statusWrite rid "Completed"])

/-- `_run_postmark_deliverability_check` (lines 747-803): skipped
entirely when the record has no domain relation or store-resolvable
name; otherwise the spam-content scan runs, and both its success and
its failure (replaced by the fallback result dict) continue into
`_update_notion_with_postmark_results`. -/
def run_postmark_deliverability_check (env : SweepEnv) (store : List Record)
    (rid : Nat) : List Record × List SweepAction :=
  match env.domainOf rid with
  | none => (store, [])
  | some _domain =>
    let results := check_email_deliverability (env.postmarkFetch rid)
    if results.status = "success" then
      let next := update_notion_with_postmark_results env store rid
      (next.1, SweepAction.spamScan rid :: next.2)
    else
      -- fallback result dict (`completed_with_errors`), same continuation
      let next := update_notion_with_postmark_results env store rid
      (next.1, SweepAction.spamScan rid :: next.2)

/-- The dispatch on the stability-check outcome inside
`get_test_report` (lines 509-538): an exception marks `Report Error`;
a not-ready result only stores the updated history in the tracking
entry; a completed result (either shape) writes the GlockApps results —
status `GlockApps Completed` plus the initial report blocks — and
drops the tracking entry. -/
def handlePollResult (store : List Record)
    (tracking2 : List (String × TrackEntry)) (r : Record) (entry2 : TrackEntry) :
    Except String StabilityResult →
    List Record × List (String × TrackEntry) × List SweepAction
  | .error e =>
    (setStatus store r.rid "Report Error", tracking2,
      [SweepAction.statusWrite r.rid "Report Error",
       SweepAction.errorLogWrite r.rid s!"Failed to get test report: {e}"])
  | .ok (.notReady h2) =>
    (store, trackInsert tracking2 r.testId { entry2 with history := h2 }, [])
  | .ok (.completedFinished _body) =>
    (setStatus store r.rid "GlockApps Completed", trackErase tracking2 r.testId,
      [SweepAction.statusWrite r.rid "GlockApps Completed",
       SweepAction.replaceBlocks r.rid initialReportBlockTypes])
  | .ok (.completedStable _body _nd) =>
    (setStatus store r.rid "GlockApps Completed", trackErase tracking2 r.testId,
      [SweepAction.statusWrite r.rid "GlockApps Completed",
       SweepAction.replaceBlocks r.rid initialReportBlockTypes])

/-- Body of `get_test_report` (lines 455-538) after the initial entry:
missing test id → nothing; `fallback_`-prefixed test id → mark
`GlockApps Completed` with fallback values; otherwise initialize the
tracking entry, return when inside the per-test poll interval, and
else poll the stability check — an exception marks `Report Error`, a
not-ready result only updates the tracked history, and a completed
result writes the GlockApps results (status `GlockApps Completed` plus
the initial report blocks) and drops the tracking entry. -/
def get_test_report_core (env : SweepEnv) (store : List Record)
    (tracking : List (String × TrackEntry)) (r : Record) :
    List Record × List (String × TrackEntry) × List SweepAction :=
  if r.testId = "" then (store, tracking, [])
  else if strStartsWith r.testId "fallback_" then
    (setStatus store r.rid "GlockApps Completed", tracking,
      [SweepAction.statusWrite r.rid "GlockApps Completed",
       SweepAction.errorLogWrite r.rid
         "Using fallback values - GlockApps test creation failed"])
  else
    let entry := (trackLookup tracking r.testId).getD
      { history := [], lastCheck := 0, interval := 10 }
    let tracking1 := trackInsert tracking r.testId entry
    if env.now - entry.lastCheck < entry.interval then
      (store, tracking1, [])
    else
      let entry2 := { entry with lastCheck := env.now }
      let tracking2 := trackInsert tracking1 r.testId entry2
      handlePollResult store tracking2 r entry2
        (check_test_completion_stability env.projEnv (env.testFetch r.testId)
          entry2.history)

/-- `get_test_report`: the entry action followed by the body above. -/
def get_test_report (env : SweepEnv) (store : List Record)
    (tracking : List (String × TrackEntry)) (r : Record) :
    List Record × List (String × TrackEntry) × List SweepAction :=
  let c := get_test_report_core env store tracking r
  (c.1, c.2.1, SweepAction.reportCheck r.rid :: c.2.2)

/-- The `for audit in emails_sent_audits` loop of the sweep: each
snapshot record is run through `get_test_report`, threading the store
and the tracking map. -/
def runReports (env : SweepEnv) :
    List Record → List Record → List (String × TrackEntry) →
    List Record × List (String × TrackEntry) × List SweepAction
  | [], s, t => (s, t, [])
  | r :: rs, s, t =>
    let c := get_test_report env s t r
    let rest := runReports env rs c.1 c.2.1
    (rest.1, rest.2.1, c.2.2 ++ rest.2.2)

/-- Sweep step 1: every record found in `Emails Sent` is run through
the placement-test poll. -/
def sweepStep1 (env : SweepEnv) (store : List Record)
    (tracking : List (String × TrackEntry)) :
    List Record × List (String × TrackEntry) × List SweepAction :=
  runReports env (store.filter (fun r => r.status == "Emails Sent")) store tracking

/-- Sweep step 2: only the first record found in `GlockApps Completed`
enters the spam-scan chain. -/
def sweepStep2 (env : SweepEnv) (store : List Record) :
    List Record × List SweepAction :=
  match store.filter (fun r => r.status == "GlockApps Completed") with
  | [] => (store, [])
  | r :: _ => run_postmark_deliverability_check env store r.rid

/-- Sweep step 3: only the first record found in `Postmark Completed`
enters the scraper + final-report step
(`_update_notion_with_postmark_results` is called directly with a
results dict synthesized from the stored fields). -/
def sweepStep3 (env : SweepEnv) (store : List Record) :
    List Record × List SweepAction :=
  match store.filter (fun r => r.status == "Postmark Completed") with
  | [] => (store, [])
  | r :: _ => update_notion_with_postmark_results env store r.rid

/-- `check_completed_tests`: the three steps in order, each of the
later ones querying the store as updated by the earlier ones. -/
def check_completed_tests (env : SweepEnv) (store : List Record)
    (tracking : List (String × TrackEntry)) :
    List Record × List (String × TrackEntry) × List SweepAction :=
  let s1 := sweepStep1 env store tracking
  let s2 := sweepStep2 env s1.1
  let s3 := sweepStep3 env s2.1
  (s3.1, s1.2.1, s1.2.2 ++ s2.2 ++ s3.2)

/-- Recognizer for spam-scan actions. -/
def isSpamScanAct : SweepAction → Bool
  | .spamScan _ => true
  | _ => false

/-- Recognizer for scraper invocations. -/
def isScraperAct : SweepAction → Bool
  | .scraperRun _ => true
  | _ => false

/-- Whether an action puts an image block on the page. -/
def actionHasImageBlock : SweepAction → Bool
  | .replaceBlocks _ bl => bl.contains .image
  | .appendBlocks _ bl => bl.contains .image
  | .appendImageBlocks _ => true
  | _ => false

/-- Sweep environment for the multi-advance scenario: no domain
resolves, provider calls unused. -/
def sweepEnvCE : SweepEnv :=
  { now := 0, projEnv := projEnvOk, testFetch := fun _ _ => .exn "unused"
    domainOf := fun _ => none, postmarkFetch := fun _ => .exn "unused"
    scraperExit := fun _ => none, blacklistFailedFlag := fun _ => false }

/-- Two records in `Emails Sent`, both carrying fallback test ids. -/
def storeCE : List Record :=
  [{ rid := 1, status := "Emails Sent", testId := "fallback_1" },
   { rid := 2, status := "Emails Sent", testId := "fallback_2" }]

/-- Sweep environment for the scraper-failure scenario: record 7
resolves to `example.com`, whose scraper exits with code 1. -/
def sweepEnvScraperFail : SweepEnv :=
  { now := 0, projEnv := projEnvOk, testFetch := fun _ _ => .exn "unused"
    domainOf := fun _ => some "example.com", postmarkFetch := fun _ => .exn "unused"
    scraperExit := fun _ => some 1, blacklistFailedFlag := fun _ => false }

/-- A single record sitting in `Postmark Completed`. -/
def storeScraperFail : List Record :=
  [{ rid := 7, status := "Postmark Completed", testId := "t-123" }]

/-! ### Theorems -/

theorem chunks25Aux_flatten :
    ∀ (fuel : Nat) (l : List String), l.length ≤ fuel →
      (chunks25Aux fuel l).flatten = l := by
  intro fuel
  induction fuel with
  | zero =>
    intro l h
    have : l = [] := List.eq_nil_of_length_eq_zero (Nat.le_zero.mp h)
    simp [this, chunks25Aux]
  | succ n ih =>
    intro l h
    cases l with
    | nil => simp [chunks25Aux]
    | cons x xs =>
      have hdrop : ((x :: xs).drop 25).length ≤ n := by
        simp only [List.length_drop, List.length_cons]
        simp only [List.length_cons] at h
        omega
      simp only [chunks25Aux, List.flatten_cons, ih _ hdrop]
      exact List.take_append_drop 25 (x :: xs)

theorem chunks25_flatten (l : List String) : (chunks25 l).flatten = l :=
  chunks25Aux_flatten l.length l le_rfl

theorem chunks25Aux_length_le :
    ∀ (fuel : Nat) (l : List String) (k : Nat), l.length ≤ fuel →
      l.length ≤ 25 * k → (chunks25Aux fuel l).length ≤ k := by
  intro fuel
  induction fuel with
  | zero =>
    intro l k h _
    have : l = [] := List.eq_nil_of_length_eq_zero (Nat.le_zero.mp h)
    simp [this, chunks25Aux]
  | succ n ih =>
    intro l k h hk
    cases l with
    | nil => simp [chunks25Aux]
    | cons x xs =>
      cases k with
      | zero => simp at hk
      | succ m =>
        have hdrop : ((x :: xs).drop 25).length ≤ n := by
          simp only [List.length_drop, List.length_cons]
          simp only [List.length_cons] at h
          omega
        have hdropk : ((x :: xs).drop 25).length ≤ 25 * m := by
          simp only [List.length_drop, List.length_cons]
          simp only [List.length_cons] at hk
          omega
        simp only [chunks25Aux, List.length_cons]
        have := ih _ m hdrop hdropk
        omega

theorem chunks25_length_le (l : List String) (k : Nat) (h : l.length ≤ 25 * k) :
    (chunks25 l).length ≤ k :=
  chunks25Aux_length_le l.length l k le_rfl h

/-- C4 (amended): for any seed list the chunking returns exactly five
groups; for an empty list all five groups are the sentinel; and for a
non-empty list of at most 125 addresses the groups are exactly the
comma-joined 25-element chunks followed by explicit `""` pad slots, and
those chunks concatenate back to the original list in order.  (Beyond
125 addresses the source truncates to the first five chunks, see the
counterexample.) -/
theorem split_seed_list_amended (seeds : List String) :
    (split_seed_list seeds).length = 5 ∧
    (seeds = [] → split_seed_list seeds = List.replicate 5 seedSentinel) ∧
    (seeds ≠ [] → seeds.length ≤ 125 →
      split_seed_list seeds
          = (chunks25 seeds).map (String.intercalate ", ")
              ++ List.replicate (5 - (chunks25 seeds).length) "" ∧
      (chunks25 seeds).flatten = seeds) := by
  refine ⟨?_, ?_, ?_⟩
  · rcases seeds with _ | ⟨x, xs⟩
    · simp [split_seed_list]
    · simp only [split_seed_list, List.isEmpty_cons, Bool.false_eq_true, if_false,
        List.length_take, List.length_append, List.length_replicate, List.length_map]
      omega
  · intro h
    simp [split_seed_list, h]
  · intro hne hlen
    have hempty : seeds.isEmpty = false := by
      cases seeds with
      | nil => exact absurd rfl hne
      | cons x xs => rfl
    have hcount : (chunks25 seeds).length ≤ 5 := chunks25_length_le seeds 5 (by omega)
    constructor
    · simp only [split_seed_list, hempty, Bool.false_eq_true, if_false, List.length_map]
      refine List.take_of_length_le ?_
      simp only [List.length_append, List.length_replicate, List.length_map]
      omega
    · exact chunks25_flatten seeds

/-- C4 counterexample: a 126-address seed list (within the claim's
stated bound of 200) produces five groups none of which is the sentinel
or an empty pad, yet their comma-joined contents do not recover the
original list — the 126th address is silently dropped by the
truncation to five chunks of 25. -/
theorem split_seed_list_trunc_counterexample :
    seeds126.length = 126 ∧
    (split_seed_list seeds126).length = 5 ∧
    ((split_seed_list seeds126).all fun g => (g != "") && (g != seedSentinel)) = true ∧
    String.intercalate ", " (split_seed_list seeds126) ≠ String.intercalate ", " seeds126 := by
  refine ⟨by decide, by decide, by decide, by decide⟩

/-- Witness for `split_seed_list_amended` at a concrete 26-address
list. -/
theorem split_seed_list_amended_witness :
    (List.replicate 26 "s" ≠ [] ∧ (List.replicate 26 "s" : List String).length ≤ 125) ∧
    (split_seed_list (List.replicate 26 "s")
        = (chunks25 (List.replicate 26 "s")).map (String.intercalate ", ")
            ++ List.replicate (5 - (chunks25 (List.replicate 26 "s")).length) "" ∧
      (chunks25 (List.replicate 26 "s")).flatten = List.replicate 26 "s") :=
  ⟨⟨by decide, by decide⟩,
    (split_seed_list_amended (List.replicate 26 "s")).2.2 (by decide) (by decide)⟩

/-- C8: the spam-score banding is a total deterministic function of the
score with fixed thresholds `<5 → Excellent`, `[5,10) → Good`,
`[10,15) → Fair`, `≥15 → Poor`; the parser's deliverability status is
exactly the band of the extracted score; and the six boundary values of
the claim map as stated. -/
theorem spam_score_banding (q : ℚ) :
    (q < 5 → bandOf q = "Excellent") ∧
    (5 ≤ q → q < 10 → bandOf q = "Good") ∧
    (10 ≤ q → q < 15 → bandOf q = "Fair") ∧
    (15 ≤ q → bandOf q = "Poor") ∧
    (∀ raw : PostmarkBody,
      (parse_postmark_results raw).deliverability = some (bandOf (postmarkScore raw))) ∧
    bandOf (49/10) = "Excellent" ∧ bandOf 5 = "Good" ∧ bandOf (99/10) = "Good" ∧
    bandOf 10 = "Fair" ∧ bandOf (149/10) = "Fair" ∧ bandOf 15 = "Poor" := by
  refine ⟨?_, ?_, ?_, ?_, fun raw => rfl, ?_, ?_, ?_, ?_, ?_, ?_⟩
  · intro h; simp [bandOf, h]
  · intro h1 h2; simp [bandOf, h2, not_lt.mpr h1]
  · intro h1 h2
    have h5 : ¬ q < 5 := not_lt.mpr (le_trans (by norm_num : (5 : ℚ) ≤ 10) h1)
    have h10 : ¬ q < 10 := not_lt.mpr h1
    simp [bandOf, h5, h10, h2]
  · intro h1
    have h5 : ¬ q < 5 := not_lt.mpr (le_trans (by norm_num : (5 : ℚ) ≤ 15) h1)
    have h10 : ¬ q < 10 := not_lt.mpr (le_trans (by norm_num : (10 : ℚ) ≤ 15) h1)
    have h15 : ¬ q < 15 := not_lt.mpr h1
    simp [bandOf, h5, h10, h15]
  all_goals norm_num [bandOf]

/-- Witness for `spam_score_banding` at score 3. -/
theorem spam_score_banding_witness :
    (3 : ℚ) < 5 ∧ bandOf 3 = "Excellent" :=
  ⟨by norm_num, (spam_score_banding 3).1 (by norm_num)⟩

/-- C10: an HTTP 200 SpamCheck response whose body has neither a
`score` nor a `Score` key parses with a defaulted score of 0 and is
reported as status `success` with deliverability `Excellent`. -/
theorem missing_score_reports_excellent (raw : PostmarkBody)
    (h1 : raw.score = none) (h2 : raw.scoreCap = none) :
    (check_email_deliverability (.resp 200 raw)).status = "success" ∧
    (check_email_deliverability (.resp 200 raw)).spamScore = some 0 ∧
    (check_email_deliverability (.resp 200 raw)).deliverability = some "Excellent" := by
  refine ⟨rfl, ?_, ?_⟩
  · simp [check_email_deliverability, parse_postmark_results, postmarkScore, h1, h2]
  · simp [check_email_deliverability, parse_postmark_results, postmarkScore,
      h1, h2, bandOf]

/-- Witness for `missing_score_reports_excellent` at the concrete
score-free body `rawNoScore`. -/
theorem missing_score_reports_excellent_witness :
    rawNoScore.score = none ∧ rawNoScore.scoreCap = none ∧
    ((check_email_deliverability (.resp 200 rawNoScore)).status = "success" ∧
     (check_email_deliverability (.resp 200 rawNoScore)).spamScore = some 0 ∧
     (check_email_deliverability (.resp 200 rawNoScore)).deliverability = some "Excellent") :=
  ⟨rfl, rfl, missing_score_reports_excellent rawNoScore rfl rfl⟩

theorem retryLoop_tried_of_order {β : Type} :
    ∀ (l : List Nat) (outcomes : Nat → VariantOutcome β),
      ∃ t, (retryLoop outcomes l).tried ++ t = l := by
  intro l
  induction l with
  | nil => intro o; exact ⟨[], rfl⟩
  | cons i rest ih =>
    intro o
    cases ho : o i with
    | exn m =>
      obtain ⟨t, ht⟩ := ih o
      exact ⟨t, by simp [retryLoop, ho, ht]⟩
    | resp code noApi body =>
      by_cases h1 : code = 200 ∨ code = 201
      · exact ⟨rest, by simp [retryLoop, ho, h1]⟩
      · by_cases h2 : (code = 401 ∨ code = 500) ∧ noApi = true
        · obtain ⟨t, ht⟩ := ih o
          exact ⟨t, by simp [retryLoop, ho, h1, h2, ht]⟩
        · exact ⟨rest, by simp [retryLoop, ho, h1, h2]⟩

theorem retryLoop_accepted_last {β : Type} :
    ∀ (l : List Nat) (outcomes : Nat → VariantOutcome β) (j : Nat),
      (retryLoop outcomes l).accepted = some j →
      ∃ t, (retryLoop outcomes l).tried = t ++ [j] := by
  intro l
  induction l with
  | nil => intro o j h; simp [retryLoop] at h
  | cons i rest ih =>
    intro o j h
    cases ho : o i with
    | exn m =>
      simp only [retryLoop, ho] at h ⊢
      obtain ⟨t, ht⟩ := ih o j h
      exact ⟨i :: t, by simp [ht]⟩
    | resp code noApi body =>
      by_cases h1 : code = 200 ∨ code = 201
      · simp only [retryLoop, ho, h1, if_true] at h ⊢
        simp at h
        exact ⟨[], by simp [h]⟩
      · by_cases h2 : (code = 401 ∨ code = 500) ∧ noApi = true
        · simp only [retryLoop, ho, h1, h2, if_false, if_true] at h ⊢
          obtain ⟨t, ht⟩ := ih o j h
          exact ⟨i :: t, by simp [ht]⟩
        · simp only [retryLoop, ho, h1, h2, if_false] at h
          simp at h

/-- Helper: a normal return of `create_test` always carries a
non-empty test id (the source raises on a falsy `testId`). -/
theorem create_test_ok_test_id (projEnv : Nat → VariantOutcome ProjectsBody)
    (createEnv : Nat → VariantOutcome CreateBody) (r : CreateTestOk)
    (h : create_test projEnv createEnv = .ok r) : r.test_id ≠ "" := by
  unfold create_test at h
  cases hp : get_project_id projEnv with
  | none => simp [hp] at h
  | some pid =>
    simp only [hp] at h
    cases hr : (make_request_with_retry createEnv).response with
    | none => simp [hr] at h
    | some cb =>
      obtain ⟨code, body⟩ := cb
      simp only [hr] at h
      by_cases hc : code = 200 ∨ code = 201
      · simp only [hc, if_true] at h
        cases ht : body.testId with
        | none => simp [ht] at h
        | some t =>
          simp only [ht] at h
          by_cases he : t = ""
          · simp [he] at h
          · simp only [he, if_false] at h
            cases h
            exact he
      · simp [hc] at h

/-- C9 counterexample: with variant 0 rejected as `No API key
provided` and variant 1 accepted, a request pins index 1
(`current_header_index = 1`), yet the next request of the same session
again probes variant 0 first rather than the pinned variant — the
probing pass recurs on every request instead of once per process
lifetime. -/
theorem header_pinning_counterexample :
    nextHeaderIndex pinEnv 0 = 1 ∧
    (make_request_with_retry pinEnv).accepted = some 1 ∧
    (make_request_with_retry pinEnv).tried = [0, 1] ∧
    (make_request_with_retry pinEnv).tried.head? ≠ some 1 := by
  refine ⟨rfl, rfl, rfl, by decide⟩

/-- C9 (amended): `_make_request_with_retry` records the accepted
variant in `current_header_index` but never consults it: the call
result is independent of the stored index, every call probes the
variants in the fixed order 0,1,2,3 from the first (its attempt list is
a prefix of that order), and within one call probing stops at the
accepted variant — so one probing pass occurs per request, not one per
process lifetime. -/
theorem header_probe_each_request {β : Type} (outcomes : Nat → VariantOutcome β)
    (idx idx2 : Nat) :
    (requestStep outcomes idx).1 = (requestStep outcomes idx2).1 ∧
    (∃ t, (make_request_with_retry outcomes).tried ++ t = [0, 1, 2, 3]) ∧
    (∀ j, (make_request_with_retry outcomes).accepted = some j →
      ∃ t, (make_request_with_retry outcomes).tried = t ++ [j]) := by
  refine ⟨rfl, retryLoop_tried_of_order [0, 1, 2, 3] outcomes, ?_⟩
  intro j hj
  exact retryLoop_accepted_last [0, 1, 2, 3] outcomes j hj

/-- Witness for `header_probe_each_request` at the concrete
environment `pinEnv`, discharging the accepted-variant hypothesis. -/
theorem header_probe_each_request_witness :
    (make_request_with_retry pinEnv).accepted = some 1 ∧
    (∃ t, (make_request_with_retry pinEnv).tried = t ++ [1]) :=
  ⟨rfl, (header_probe_each_request pinEnv 0 1).2.2 1 rfl⟩

/-- C2: on a 200-fetched payload the stability check returns the pure
`stabilityStep`: a `finished` payload is complete immediately without
consulting the history; otherwise the current count is appended (oldest
dropped beyond 3) and the call is complete exactly when the updated
history holds 3 entries of a single value; polled counts [5,5,5] from
an empty history complete (stabilized) on the third call, while [5,6,5]
never complete within three calls. -/
theorem completion_stability (projEnv : Nat → VariantOutcome ProjectsBody)
    (fetchEnv : Nat → VariantOutcome TestResultBody)
    (body : TestResultBody) (history : List Int) (pid : String)
    (hpid : get_project_id projEnv = some pid)
    (hresp : (make_request_with_retry fetchEnv).response = some (200, body)) :
    check_test_completion_stability projEnv fetchEnv history
        = .ok (stabilityStep body history) ∧
    (body.finished = true → stabilityStep body history = .completedFinished body) ∧
    (body.finished = false →
      (isCompleteResult (stabilityStep body history) = true ↔
        ((updatedHistory body history).length = 3 ∧
          (updatedHistory body history).eraseDups.length = 1)) ∧
      (isCompleteResult (stabilityStep body history) = false →
        stabilityStep body history = .notReady (updatedHistory body history))) ∧
    runStability [ndPayload 5, ndPayload 5, ndPayload 5] []
        = [.notReady [5], .notReady [5, 5], .completedStable (ndPayload 5) 5] ∧
    (runStability [ndPayload 5, ndPayload 6, ndPayload 5] []).all
        (fun r => !isCompleteResult r) = true := by
  refine ⟨?_, ?_, ?_, by decide, by decide⟩
  · simp [check_test_completion_stability, hpid, hresp]
  · intro h; simp [stabilityStep, h]
  · intro h
    constructor
    · by_cases hc : (updatedHistory body history).length = 3 ∧
          (updatedHistory body history).eraseDups.length = 1
      · simp [stabilityStep, h, hc, isCompleteResult]
      · simp [stabilityStep, h, hc, isCompleteResult]
    · intro hnc
      by_cases hc : (updatedHistory body history).length = 3 ∧
          (updatedHistory body history).eraseDups.length = 1
      · simp [stabilityStep, h, hc, isCompleteResult] at hnc
      · simp [stabilityStep, h, hc]

/-- Witness for `completion_stability` at a concrete healthy project
environment and an unfinished payload with count 5. -/
theorem completion_stability_witness :
    get_project_id projEnvOk = some "p1" ∧
    (make_request_with_retry fetchEnv5).response = some (200, ndPayload 5) ∧
    check_test_completion_stability projEnvOk fetchEnv5 []
        = .ok (stabilityStep (ndPayload 5) []) :=
  ⟨rfl, rfl,
    (completion_stability projEnvOk fetchEnv5 (ndPayload 5) [] "p1" rfl rfl).1⟩

/-- C3 (code bug): an IP blacklist check failing with HTTP 500 yields
a field map whose `IP Blacklist Status` reads `Detections: 0` —
character-for-character identical to a genuinely clean check — with no
issue flagged.  The checker returns status `failed`/`error` (never
`fallback`), the field map is built before the failed→fallback
conversion of main.py lines 178-193, and the converted values are
never used, so the builder's `Fallback - Check Failed` branches are
dead on this path. -/
theorem blacklist_failure_indistinguishable :
    (∀ f, (check_ip_blacklists f).status ≠ "fallback") ∧
    (check_ip_blacklists (.resp 500 cleanBlBody)).status = "failed" ∧
    (buildBlacklistFields (check_ip_blacklists (.resp 500 cleanBlBody))
        (check_domain_blacklists (.resp 200 cleanBlBody))).ipStatus
      = "Detections: 0" ∧
    (buildBlacklistFields (check_ip_blacklists (.resp 500 cleanBlBody))
        (check_domain_blacklists (.resp 200 cleanBlBody))).ipStatus
      = (buildBlacklistFields (check_ip_blacklists (.resp 200 cleanBlBody))
          (check_domain_blacklists (.resp 200 cleanBlBody))).ipStatus ∧
    (buildBlacklistFields (check_ip_blacklists (.resp 500 cleanBlBody))
        (check_domain_blacklists (.resp 200 cleanBlBody))).issuesFound = none := by
  refine ⟨?_, rfl, by decide, by decide, rfl⟩
  intro f
  cases f with
  | exn e => simp [check_ip_blacklists]
  | resp code body =>
    by_cases hc : code = 200
    · simp [check_ip_blacklists, hc]
    · simp [check_ip_blacklists, hc]

/-- C6 counterexample: with the projects listing healthy but every
header variant failing with a transport exception on the test-creation
POST, `create_test` raises (modelled as `Except.error`) rather than
returning a normalized result value; an HTTP 403 on the POST likewise
raises. -/
theorem create_test_raises_counterexample :
    create_test projEnvOk createEnvDown = .error "API request failed: No response" ∧
    create_test projEnvOk createEnv403 = .error "API request failed: 403" :=
  ⟨rfl, rfl⟩

/-- C6 (amended): the blacklist clients and the spam-scan client
normalize success, HTTP-error and transport-exception outcomes into
result dicts and never raise, but the placement-test creation client
raises an exception on every failure outcome (its orchestrator caller
catches it and substitutes the fallback), returning normally only on a
2xx response carrying a truthy test id. -/
theorem provider_client_normalization :
    (∀ body : BlBody, (check_ip_blacklists (.resp 200 body)).status = "checked") ∧
    (∀ code body, code ≠ 200 → (check_ip_blacklists (.resp code body)).status = "failed") ∧
    (∀ e, (check_ip_blacklists (.exn e)).status = "error") ∧
    (∀ body : BlBody, (check_domain_blacklists (.resp 200 body)).status = "checked") ∧
    (∀ code body, code ≠ 200 → (check_domain_blacklists (.resp code body)).status = "failed") ∧
    (∀ e, (check_domain_blacklists (.exn e)).status = "error") ∧
    (∀ body : PostmarkBody, (check_email_deliverability (.resp 200 body)).status = "success") ∧
    (∀ code body, code ≠ 200 → (check_email_deliverability (.resp code body)).status = "error") ∧
    (∀ e, (check_email_deliverability (.exn e)).status = "error") ∧
    (∀ pe ce, get_project_id pe = none →
      create_test pe ce = .error "Could not retrieve project ID from GlockApps") ∧
    (∀ pe ce, (make_request_with_retry ce).response = none →
      ∃ m, create_test pe ce = .error m) ∧
    (∀ pe ce code body, (make_request_with_retry ce).response = some (code, body) →
      ¬(code = 200 ∨ code = 201) → ∃ m, create_test pe ce = .error m) ∧
    (∀ pe ce r, create_test pe ce = .ok r → r.test_id ≠ "") := by
  refine ⟨fun body => by simp [check_ip_blacklists],
    fun code body hc => by simp [check_ip_blacklists, hc],
    fun e => rfl,
    fun body => by simp [check_domain_blacklists],
    fun code body hc => by simp [check_domain_blacklists, hc],
    fun e => rfl,
    fun body => by simp [check_email_deliverability, parse_postmark_results],
    fun code body hc => by simp [check_email_deliverability, hc],
    fun e => rfl, ?_, ?_, ?_, create_test_ok_test_id⟩
  · intro pe ce hp
    simp [create_test, hp]
  · intro pe ce hr
    cases hp : get_project_id pe with
    | none =>
      exact ⟨"Could not retrieve project ID from GlockApps", by simp [create_test, hp]⟩
    | some pid =>
      exact ⟨"API request failed: No response", by simp [create_test, hp, hr]⟩
  · intro pe ce code body hr hc
    cases hp : get_project_id pe with
    | none =>
      exact ⟨"Could not retrieve project ID from GlockApps", by simp [create_test, hp]⟩
    | some pid =>
      exact ⟨s!"API request failed: {code}", by simp [create_test, hp, hr, hc]⟩

/-- Witness for `provider_client_normalization`: a failed IP lookup, a
spam-scan transport error, and a dead test-creation endpoint, at
concrete inputs. -/
theorem provider_client_normalization_witness :
    ((500 : Nat) ≠ 200 ∧
      (check_ip_blacklists (.resp 500 cleanBlBody)).status = "failed") ∧
    (check_email_deliverability (.exn "timeout")).status = "error" ∧
    ((make_request_with_retry createEnvDown).response = none ∧
      ∃ m, create_test projEnvOk createEnvDown = .error m) :=
  ⟨⟨by decide, provider_client_normalization.2.1 500 cleanBlBody (by decide)⟩,
    provider_client_normalization.2.2.2.2.2.2.2.2.1 "timeout",
    ⟨rfl, provider_client_normalization.2.2.2.2.2.2.2.2.2.2.1 projEnvOk createEnvDown rfl⟩⟩

/-- C1: for a Running record whose domain has a relation and a
store-resolvable name, one orchestrator pass over steps 1-2 ends with
status `Awaiting Email Sending` when test creation succeeds and
`GlockApps Completed` with a `fallback_`-prefixed test id when it
raises — never still `Running` (some status is always written); and
when the domain's IP is unresolvable the pass performs exactly one
update, setting the terminal `Error` status, and returns. -/
theorem process_single_audit_one_pass (env : AuditEnv) (d : String)
    (hrel : env.hasRelation = true) (hname : env.domainName = some d) :
    (env.ip = none →
      (process_single_audit env).length = 1 ∧
      finalStatus (process_single_audit env) = some "Error") ∧
    (∀ a, env.ip = some a →
      finalStatus (process_single_audit env) ≠ some "Running" ∧
      finalStatus (process_single_audit env) ≠ none ∧
      ((∃ r, create_test env.projEnv env.createEnv = Except.ok r ∧
          finalStatus (process_single_audit env) = some "Awaiting Email Sending") ∨
       (∃ e, create_test env.projEnv env.createEnv = Except.error e ∧
          finalStatus (process_single_audit env) = some "GlockApps Completed" ∧
          ∃ rest, writtenTestId (process_single_audit env)
            = some ("fallback_" ++ rest)))) := by
  constructor
  · intro hip
    simp [process_single_audit, hrel, hname, hip, finalStatus, noUpdate]
  · intro a hip
    cases hc : create_test env.projEnv env.createEnv with
    | ok r =>
      have hne : r.test_id ≠ "" := create_test_ok_test_id _ _ _ hc
      refine ⟨?_, ?_, Or.inl ⟨r, rfl, ?_⟩⟩ <;>
        simp [process_single_audit, hrel, hname, hip, hc, hne, finalStatus, noUpdate]
    | error e =>
      refine ⟨?_, ?_, Or.inr ⟨e, rfl, ?_, toString env.timeNow, ?_⟩⟩ <;>
        simp [process_single_audit, hrel, hname, hip, hc, finalStatus,
          writtenTestId, noUpdate]

/-- Witness for `process_single_audit_one_pass` at a concrete record
with a relation and a resolvable name but no DNS resolution. -/
theorem process_single_audit_one_pass_witness :
    auditEnvNoIp.hasRelation = true ∧
    auditEnvNoIp.domainName = some "example.com" ∧
    auditEnvNoIp.ip = none ∧
    ((process_single_audit auditEnvNoIp).length = 1 ∧
      finalStatus (process_single_audit auditEnvNoIp) = some "Error") :=
  ⟨rfl, rfl, rfl,
    (process_single_audit_one_pass auditEnvNoIp "example.com" rfl rfl).1 rfl⟩

theorem setStatus_rid_status (s : List Record) (rid : Nat) (st : String)
    (r : Record) (hr : r ∈ setStatus s rid st) (heq : r.rid = rid) :
    r.status = st := by
  simp only [setStatus, List.mem_map] at hr
  obtain ⟨orig, _, hmap⟩ := hr
  by_cases h : orig.rid = rid
  · simp only [h, if_true] at hmap
    cases hmap
    rfl
  · simp only [h, if_false] at hmap
    cases hmap
    exact absurd heq h

theorem finalReportBlockTypes_no_image (fb bf : Bool) :
    (finalReportBlockTypes fb bf).contains BlockType.image = false := by
  cases fb <;> cases bf <;> decide

/-- C7: nonzero scraper exit codes (and only they) are failures — the
code classification is diagnostic only — and on scraper failure the
record still reaches `Completed`: the last write is the `Completed`
status, the local screenshot directory is cleaned up, the error log
mentions the scraper failure, the final report blocks are written, and
no action of the step puts an image block on the page. -/
theorem scraper_failure_still_completes (env : SweepEnv) (store : List Record)
    (rid : Nat) (domain : String) (c : Nat)
    (hdom : env.domainOf rid = some domain)
    (hexit : env.scraperExit domain = some c) (hc : c ≠ 0) :
    (∀ e : Nat, run_postmaster_scraper (some e) = true ↔ e = 0) ∧
    run_postmaster_scraper (env.scraperExit domain) = false ∧
    (∀ r ∈ (update_notion_with_postmark_results env store rid).1,
      r.rid = rid → r.status = "Completed") ∧
    (update_notion_with_postmark_results env store rid).2.getLast?
        = some (SweepAction.statusWrite rid "Completed") ∧
    SweepAction.cleanupDir domain
        ∈ (update_notion_with_postmark_results env store rid).2 ∧
    SweepAction.errorLogWrite rid
        s!"Postmaster scraper failed for domain {domain}. Screenshots unavailable. Check logs for details."
        ∈ (update_notion_with_postmark_results env store rid).2 ∧
    (∃ fb bf, SweepAction.replaceBlocks rid (finalReportBlockTypes fb bf)
        ∈ (update_notion_with_postmark_results env store rid).2) ∧
    ((update_notion_with_postmark_results env store rid).2.all
        (fun a => !actionHasImageBlock a)) = true ∧
    (∀ fb bf, (finalReportBlockTypes fb bf).contains BlockType.image = false) := by
  have hrun : run_postmaster_scraper (env.scraperExit domain) = false := by
    rw [hexit]
    simp [run_postmaster_scraper, hc]
  refine ⟨?_, hrun, ?_, ?_, ?_, ?_, ?_, ?_, finalReportBlockTypes_no_image⟩
  · intro e
    simp [run_postmaster_scraper]
  · intro r hr hrid
    simp only [update_notion_with_postmark_results] at hr
    exact setStatus_rid_status _ _ _ _ hr hrid
  · simp [update_notion_with_postmark_results, hdom, hrun]
  · simp [update_notion_with_postmark_results, hdom, hrun]
  · simp [update_notion_with_postmark_results, hdom, hrun]
  · refine ⟨(match findRecord store rid with
      | some r => strStartsWith r.testId "fallback_"
      | none => false), env.blacklistFailedFlag rid, ?_⟩
    simp [update_notion_with_postmark_results, hdom, hrun]
  · simp [update_notion_with_postmark_results, hdom, hrun, actionHasImageBlock,
      finalReportBlockTypes_no_image]
    decide

/-- Witness for `scraper_failure_still_completes`: a concrete record in
`Postmark Completed` whose domain's scraper exits with code 1. -/
theorem scraper_failure_still_completes_witness :
    sweepEnvScraperFail.domainOf 7 = some "example.com" ∧
    sweepEnvScraperFail.scraperExit "example.com" = some 1 ∧
    (update_notion_with_postmark_results sweepEnvScraperFail storeScraperFail 7).2.getLast?
        = some (SweepAction.statusWrite 7 "Completed") ∧
    SweepAction.cleanupDir "example.com"
        ∈ (update_notion_with_postmark_results sweepEnvScraperFail storeScraperFail 7).2 ∧
    ((update_notion_with_postmark_results sweepEnvScraperFail storeScraperFail 7).2.all
        (fun a => !actionHasImageBlock a)) = true :=
  ⟨rfl, rfl,
    (scraper_failure_still_completes sweepEnvScraperFail storeScraperFail 7
      "example.com" 1 rfl rfl (by decide)).2.2.2.1,
    (scraper_failure_still_completes sweepEnvScraperFail storeScraperFail 7
      "example.com" 1 rfl rfl (by decide)).2.2.2.2.1,
    (scraper_failure_still_completes sweepEnvScraperFail storeScraperFail 7
      "example.com" 1 rfl rfl (by decide)).2.2.2.2.2.2.2.1⟩

theorem get_test_report_core_acts (env : SweepEnv) (s : List Record)
    (t : List (String × TrackEntry)) (r : Record) :
    ∀ a ∈ (get_test_report_core env s t r).2.2,
      isSpamScanAct a = false ∧ isScraperAct a = false := by
  intro a ha
  have hpoll : ∀ (s2 : List Record) (t2 : List (String × TrackEntry))
      (e2 : TrackEntry) (res : Except String StabilityResult),
      a ∈ (handlePollResult s2 t2 r e2 res).2.2 →
      isSpamScanAct a = false ∧ isScraperAct a = false := by
    intro s2 t2 e2 res hres
    rcases res with e | sres
    · simp [handlePollResult] at hres
      rcases hres with h | h <;> subst h <;> exact ⟨rfl, rfl⟩
    · rcases sres with _body | ⟨_body, _nd⟩ | h2 <;>
        simp [handlePollResult] at hres <;>
        (try rcases hres with h | h) <;> (try subst h) <;> exact ⟨rfl, rfl⟩
  unfold get_test_report_core at ha
  split at ha
  · simp at ha
  · split at ha
    · simp at ha
      rcases ha with h | h <;> subst h <;> exact ⟨rfl, rfl⟩
    · dsimp only at ha
      split at ha
      · simp at ha
      · exact hpoll _ _ _ _ ha

theorem get_test_report_acts (env : SweepEnv) (s : List Record)
    (t : List (String × TrackEntry)) (r : Record) :
    ∀ a ∈ (get_test_report env s t r).2.2,
      isSpamScanAct a = false ∧ isScraperAct a = false := by
  intro a ha
  simp only [get_test_report] at ha
  rcases List.mem_cons.mp ha with h | h
  · subst h; exact ⟨rfl, rfl⟩
  · exact get_test_report_core_acts env s t r a h

theorem runReports_acts (env : SweepEnv) :
    ∀ (rs : List Record) (s : List Record) (t : List (String × TrackEntry)),
      ∀ a ∈ (runReports env rs s t).2.2,
        isSpamScanAct a = false ∧ isScraperAct a = false := by
  intro rs
  induction rs with
  | nil => intro s t a ha; simp [runReports] at ha
  | cons r rest ih =>
    intro s t a ha
    simp only [runReports] at ha
    rcases List.mem_append.mp ha with h | h
    · exact get_test_report_acts env s t r a h
    · exact ih _ _ a h

theorem runReports_reportCheck (env : SweepEnv) :
    ∀ (rs : List Record) (s : List Record) (t : List (String × TrackEntry))
      (r : Record), r ∈ rs →
      SweepAction.reportCheck r.rid ∈ (runReports env rs s t).2.2 := by
  intro rs
  induction rs with
  | nil => intro s t r hr; simp at hr
  | cons x rest ih =>
    intro s t r hr
    simp only [runReports]
    rcases List.mem_cons.mp hr with h | h
    · subst h
      exact List.mem_append.mpr (Or.inl (by simp [get_test_report]))
    · exact List.mem_append.mpr (Or.inr (ih _ _ r h))

theorem update_notion_acts (env : SweepEnv) (s : List Record) (rid : Nat) :
    ∀ a ∈ (update_notion_with_postmark_results env s rid).2,
      isSpamScanAct a = false ∧
      (isScraperAct a = true → a = SweepAction.scraperRun rid) := by
  intro a ha
  unfold update_notion_with_postmark_results at ha
  rcases List.mem_cons.mp ha with h | h
  · subst h; exact ⟨rfl, by intro hh; simp [isScraperAct] at hh⟩
  · rcases List.mem_append.mp h with h2 | h2
    · revert h2
      split
      · simp
      · split_ifs
        · intro h2
          simp at h2
          rcases h2 with h3 | h3 | h3 <;> subst h3 <;>
            exact ⟨rfl, fun _ => by first | rfl | simp_all [isScraperAct]⟩
        · intro h2
          simp at h2
          rcases h2 with h3 | h3 | h3 | h3 | h3 <;> subst h3 <;>
            exact ⟨rfl, fun hh => by first | rfl | simp_all [isScraperAct]⟩
    · simp at h2
      subst h2
      exact ⟨rfl, by intro hh; simp [isScraperAct] at hh⟩

theorem run_postmark_acts (env : SweepEnv) (s : List Record) (rid : Nat) :
    ∀ a ∈ (run_postmark_deliverability_check env s rid).2,
      (isSpamScanAct a = true → a = SweepAction.spamScan rid) ∧
      (isScraperAct a = true → a = SweepAction.scraperRun rid) := by
  intro a ha
  unfold run_postmark_deliverability_check at ha
  split at ha
  · simp at ha
  · simp only [ite_self] at ha
    rcases List.mem_cons.mp ha with h | h
    · subst h
      exact ⟨fun _ => rfl, by intro hh; simp [isScraperAct] at hh⟩
    · have hu := update_notion_acts env s rid a h
      refine ⟨fun hh => ?_, hu.2⟩
      rw [hu.1] at hh
      cases hh

/-- C5 (amended): one sweep attempts a placement-test poll for every
record found in `Emails Sent` (each may advance if ready — not just
one); the spam-content scan runs only for the single first record
found in `GlockApps Completed` after step 1; and a scraper + final
report run happens only for that first `GlockApps Completed` record
(whose chain passes through `Postmark Completed` within the same
sweep) or for the single first record found in `Postmark Completed`
by step 3's query. -/
theorem check_completed_tests_sweep (env : SweepEnv) (store : List Record)
    (tracking : List (String × TrackEntry)) :
    (∀ r ∈ store, r.status = "Emails Sent" →
      SweepAction.reportCheck r.rid ∈ (check_completed_tests env store tracking).2.2) ∧
    (∀ i, SweepAction.spamScan i ∈ (check_completed_tests env store tracking).2.2 →
      ∃ r rest, (sweepStep1 env store tracking).1.filter
          (fun x => x.status == "GlockApps Completed") = r :: rest ∧ i = r.rid) ∧
    (∀ i, SweepAction.scraperRun i ∈ (check_completed_tests env store tracking).2.2 →
      (∃ r rest, (sweepStep1 env store tracking).1.filter
          (fun x => x.status == "GlockApps Completed") = r :: rest ∧ i = r.rid) ∨
      (∃ r rest, (sweepStep2 env (sweepStep1 env store tracking).1).1.filter
          (fun x => x.status == "Postmark Completed") = r :: rest ∧ i = r.rid)) := by
  refine ⟨?_, ?_, ?_⟩
  · intro r hr hstat
    have hmem : r ∈ store.filter (fun x => x.status == "Emails Sent") :=
      List.mem_filter.mpr ⟨hr, by simp [hstat]⟩
    simp only [check_completed_tests]
    exact List.mem_append.mpr (Or.inl (List.mem_append.mpr (Or.inl
      (runReports_reportCheck env _ store tracking r hmem))))
  · intro i hi
    simp only [check_completed_tests] at hi
    rcases List.mem_append.mp hi with h12 | h3
    · rcases List.mem_append.mp h12 with h1 | h2
      · have := (runReports_acts env _ store tracking _ h1).1
        simp [isSpamScanAct] at this
      · revert h2
        unfold sweepStep2
        split
        · intro h2; simp at h2
        · intro h2
          rename_i r rest heq
          have := (run_postmark_acts env _ _ _ h2).1 rfl
          cases this
          exact ⟨r, rest, heq, rfl⟩
    · revert h3
      unfold sweepStep3
      split
      · intro h3; simp at h3
      · intro h3
        have := (update_notion_acts env _ _ _ h3).1
        simp [isSpamScanAct] at this
  · intro i hi
    simp only [check_completed_tests] at hi
    rcases List.mem_append.mp hi with h12 | h3
    · rcases List.mem_append.mp h12 with h1 | h2
      · have := (runReports_acts env _ store tracking _ h1).2
        simp [isScraperAct] at this
      · left
        revert h2
        unfold sweepStep2
        split
        · intro h2; simp at h2
        · intro h2
          rename_i r rest heq
          have := (run_postmark_acts env _ _ _ h2).2 rfl
          cases this
          exact ⟨r, rest, heq, rfl⟩
    · right
      revert h3
      unfold sweepStep3
      split
      · intro h3; simp at h3
      · intro h3
        rename_i r rest heq
        have := (update_notion_acts env _ _ _ h3).2 rfl
        cases this
        exact ⟨r, rest, heq, rfl⟩

/-- C5 counterexample: a store holding two `Emails Sent` records (both
with fallback test ids) sees both of them advance to
`GlockApps Completed` in one sweep call — more than one record of one
status advanced per sweep. -/
theorem sweep_multi_advance_counterexample :
    (storeCE.filter (fun r => r.status == "Emails Sent")).length = 2 ∧
    ((check_completed_tests sweepEnvCE storeCE []).1.filter
        (fun r => r.status == "GlockApps Completed")).length = 2 ∧
    ((check_completed_tests sweepEnvCE storeCE []).1.filter
        (fun r => r.status == "Emails Sent")).length = 0 :=
  ⟨rfl, rfl, rfl⟩

/-- Witness for `check_completed_tests_sweep` at the concrete
two-record store. -/
theorem check_completed_tests_sweep_witness :
    ({ rid := 1, status := "Emails Sent", testId := "fallback_1" } : Record) ∈ storeCE ∧
    SweepAction.reportCheck 1 ∈ (check_completed_tests sweepEnvCE storeCE []).2.2 :=
  ⟨by simp [storeCE],
    (check_completed_tests_sweep sweepEnvCE storeCE []).1
      { rid := 1, status := "Emails Sent", testId := "fallback_1" }
      (by simp [storeCE]) rfl⟩
